import Mathlib

/-!
Shallow embedding of the route-selection engine of `raiden` (file
`src/raiden/routing.py`): the data model it reads (chain state, token
network, channel, route) and the three operations `get_best_routes`,
`get_best_routes_pfs` and `resolve_routes`, followed by theorems
settling the specification claims.

Modelling conventions:
* Addresses, channel identifiers, block numbers, keys and UUIDs are `Nat`;
  fee amounts are `Int` (they may be negative in the source's type system).
* Python dictionaries become association lists (`List (κ × ν)`), looked up
  with `List.lookup`; dictionary indexing that can raise `KeyError`, list
  indexing that can raise `IndexError`, and the `assert` statement are
  modelled by an `Option` result where `none` marks the raised exception.
* The network call `query_paths` either raises `ServiceRequestFailed` or
  returns routes plus a feedback token; it is modelled as an oracle
  function from the request actually sent to a `QueryResult`.
* Functions of the repository that `routing.py` calls but whose bodies are
  outside the sampled sources (the `views` lookups and the `channel`
  usability helpers) are modelled from the spec; each carries a doc
  comment saying so.
-/

abbrev Address := Nat
abbrev ChannelID := Nat
abbrev UUID := Nat
abbrev PrivateKey := Nat
abbrev FeeAmount := Int

/-- Channel lifecycle status (`ChannelState.STATE_*` in the source's state
module). -/
inductive ChannelStatus where
  | opened
  | closing
  | closed
  | settling
  | settled
  | unusable
deriving DecidableEq, Repr

/-- Outcome set of the channel usability predicate
(`channel.ChannelUsability`). -/
inductive ChannelUsability where
  | USABLE
  | NOT_OPENED
  | INSUFFICIENT_OWN_CAPACITY
  | INSUFFICIENT_PARTNER_CAPACITY
  | IS_EXCLUDED_CHANNEL
deriving DecidableEq, Repr

/-- The part of a channel's on-chain open transaction record read by
routing: the block number at which the opening transaction finalized. -/
structure TransactionExecutionStatus where
  finished_block_number : Nat
deriving DecidableEq, Repr

/-- One payment channel, restricted to the attributes the routing engine
reads: identifier, lifecycle status, the balance figures consumed by the
usability predicate, and the open transaction record. -/
structure ChannelState where
  identifier : ChannelID
  status : ChannelStatus
  our_available_balance : Nat
  partner_has_room : Bool
  open_transaction : TransactionExecutionStatus
deriving DecidableEq, Repr

/-- One token network: partner address → channel identifiers, and channel
identifier → channel state (both dictionaries in the source). -/
structure TokenNetworkState where
  partneraddresses_to_channelidentifiers : List (Address × List ChannelID)
  channelidentifiers_to_channels : List (ChannelID × ChannelState)
deriving DecidableEq, Repr

/-- The node-wide chain state, restricted to the attributes routing reads:
block number, chain id, own address, and the token networks by address. -/
structure ChainState where
  block_number : Nat
  chain_id : Nat
  our_address : Address
  tokennetworkaddresses_to_tokennetworks : List (Address × TokenNetworkState)
deriving DecidableEq, Repr

/-- An already-validated candidate route: ordered address sequence and
estimated fee (`RouteState` in the source's state module). -/
structure RouteState where
  route : List Address
  estimated_fee : FeeAmount
deriving DecidableEq, Repr

/-- Peer-supplied route metadata: an ordered address sequence proposed by a
third party (`RouteMetadata` in the source's messages module). -/
structure RouteMetadata where
  route : List Address
deriving DecidableEq, Repr

/-- Path-finding-service configuration; routing only passes it through to
the query, so a single policy field suffices. -/
structure PFSConfig where
  maximum_fee : Nat
deriving DecidableEq, Repr

/-- One raw path candidate from the path-finding service response: the
`path_object` dictionary with its `path` and `estimated_fee` entries.
Addresses are modelled already decoded from their wire format. -/
structure PathObject where
  path : List Address
  estimated_fee : FeeAmount
deriving DecidableEq, Repr

/-- The argument record of one `query_paths` call, i.e. the request the
routing engine sends to the path-finding service. -/
structure PFSRequest where
  pfs_config : PFSConfig
  our_address : Address
  privkey : PrivateKey
  current_block_number : Nat
  token_network_address : Address
  one_to_n_address : Address
  chain_id : Nat
  route_from : Address
  route_to : Address
  value : Nat
  pfs_wait_for_block : Nat
deriving DecidableEq, Repr

/-- What one `query_paths` call does: either it raises
`ServiceRequestFailed` whose first argument is `msg`, or it returns a list
of raw path candidates together with an optional feedback token. -/
inductive QueryResult where
  | failed (msg : String)
  | success (routes : List PathObject) (feedback_token : Option UUID)
deriving DecidableEq, Repr

/-- The path-finding network layer, modelled as an oracle mapping the
request actually sent to its outcome. -/
abbrev PFSOracle := PFSRequest → QueryResult

/-- Modelled from the spec: `eth_utils.to_canonical_address` converts a
wire-format (checksummed hex) address into its canonical byte form. This
decoding is outside the sampled sources; addresses in the embedding are
already canonical, so the conversion is the identity. -/
def to_canonical_address (node : Address) : Address := node

/-- Modelled from the spec: `views.get_token_network_by_address` resolves a
token network address to its `TokenNetworkState`, or `none` when the chain
state has no such token network. -/
def get_token_network_by_address (chain_state : ChainState)
    (token_network_address : Address) : Option TokenNetworkState :=
  List.lookup token_network_address chain_state.tokennetworkaddresses_to_tokennetworks

/-- Modelled from the spec: `views.get_channelstate_by_token_network_and_partner`
returns the channel between this node and `partner_address` in the given
token network, or `none` when no such channel exists (no token network, no
entry for the partner, or an empty identifier list). -/
def get_channelstate_by_token_network_and_partner (chain_state : ChainState)
    (token_network_address : Address) (partner_address : Address) :
    Option ChannelState :=
  match get_token_network_by_address chain_state token_network_address with
  | none => none
  | some token_network =>
    match List.lookup partner_address token_network.partneraddresses_to_channelidentifiers with
    | none => none
    | some [] => none
    | some (channel_id :: _) =>
      List.lookup channel_id token_network.channelidentifiers_to_channels

/-- Modelled from the spec: `channel.get_status` returns the channel's
lifecycle status. -/
def get_status (channel_state : ChannelState) : ChannelStatus :=
  channel_state.status

/-- Modelled from the spec: `channel.is_channel_usable_for_new_transfer`
yields `USABLE` when the channel's status is opened, its own available
balance covers the amount, its partner's balance leaves room for the
transfer, and the channel is not the excluded one; otherwise it yields the
specific non-usable reason. -/
def is_channel_usable_for_new_transfer (channel_state : ChannelState)
    (amount : Nat) (excluded_channel_id : Option ChannelID) : ChannelUsability :=
  if excluded_channel_id = some channel_state.identifier then
    ChannelUsability.IS_EXCLUDED_CHANNEL
  else if channel_state.status ≠ ChannelStatus.opened then
    ChannelUsability.NOT_OPENED
  else if channel_state.our_available_balance < amount then
    ChannelUsability.INSUFFICIENT_OWN_CAPACITY
  else if ¬ channel_state.partner_has_room then
    ChannelUsability.INSUFFICIENT_PARTNER_CAPACITY
  else
    ChannelUsability.USABLE

/-- The direct-channel loop of `get_best_routes` (routing.py lines 52-68):
walk the payee's channel identifiers in order; `some true` when the first
usable channel is found, `some false` when none is usable, `none` when a
`KeyError` is raised because an identifier is missing from
`channelidentifiers_to_channels`. -/
def directLoop (token_network : TokenNetworkState) (amount : Nat) :
    List ChannelID → Option Bool
  | [] => some false
  | channel_id :: rest =>
    match List.lookup channel_id token_network.channelidentifiers_to_channels with
    | none => none
    | some channel_state =>
      if is_channel_usable_for_new_transfer channel_state amount none =
          ChannelUsability.USABLE then
        some true
      else
        directLoop token_network amount rest

/-- The direct-channel phase of `get_best_routes` (routing.py lines 51-68):
the membership test on the partner index followed by the loop over the
payee's channel identifiers. -/
def directPhase (token_network : TokenNetworkState) (to_address : Address)
    (amount : Nat) : Option Bool :=
  match List.lookup to_address token_network.partneraddresses_to_channelidentifiers with
  | none => some false
  | some channel_ids => directLoop token_network amount channel_ids

/-- `latest_channel_opened_at` (routing.py lines 70-74): fold of `max`
over the finished block numbers of all channels, starting from 0. -/
def latestChannelOpenedAt (token_network : TokenNetworkState) : Nat :=
  (token_network.channelidentifiers_to_channels.map
    (fun p => p.2.open_transaction.finished_block_number)).foldl max 0

/-- Python truthiness of the optional error message
(`if not pfs_error_msg`): falsy when absent or the empty string. -/
def strFalsy : Option String → Bool
  | none => true
  | some s => decide (s = "")

/-- The per-candidate validation loop of `get_best_routes_pfs`
(routing.py lines 144-182): canonicalize the path, read its second entry
(an `IndexError`, modelled as `none`, when the path is shorter than 2),
skip the candidate when the second entry equals `previous_address` or no
channel to it exists or the channel is not opened, and otherwise keep a
`RouteState` carrying the canonical path and the candidate's estimated
fee. -/
def processPathObjects (chain_state : ChainState)
    (token_network_address : Address) (previous_address : Option Address) :
    List PathObject → Option (List RouteState)
  | [] => some []
  | path_object :: rest =>
    match path_object.path.map to_canonical_address with
    | [] => none
    | [_] => none
    | canonical_head :: partner_address :: canonical_tail =>
      let canonical_path := canonical_head :: partner_address :: canonical_tail
      if some partner_address = previous_address then
        processPathObjects chain_state token_network_address previous_address rest
      else
        match get_channelstate_by_token_network_and_partner chain_state
            token_network_address partner_address with
        | none =>
          processPathObjects chain_state token_network_address previous_address rest
        | some channel_state =>
          if get_status channel_state ≠ ChannelStatus.opened then
            processPathObjects chain_state token_network_address previous_address rest
          else
            (processPathObjects chain_state token_network_address previous_address
              rest).map
              (fun paths => RouteState.mk canonical_path path_object.estimated_fee :: paths)

/-- `get_best_routes_pfs` (routing.py lines 112-184): send the query; a
`ServiceRequestFailed` with message `m` becomes the result
`("PFS: " ++ m, [], none)` — with a `none` message when `m` is empty,
mirroring `("PFS: " + e.args[0]) if e.args[0] else None`; a successful
query runs the candidates through the validation loop (whose `IndexError`
propagates as `none`). -/
def get_best_routes_pfs (query_paths : PFSOracle) (chain_state : ChainState)
    (token_network_address : Address) (one_to_n_address : Address)
    (from_address : Address) (to_address : Address) (amount : Nat)
    (previous_address : Option Address) (pfs_config : PFSConfig)
    (privkey : PrivateKey) (pfs_wait_for_block : Nat) :
    Option (Option String × List RouteState × Option UUID) :=
  match query_paths
      (PFSRequest.mk pfs_config chain_state.our_address privkey
        chain_state.block_number token_network_address one_to_n_address
        chain_state.chain_id from_address to_address amount
        pfs_wait_for_block) with
  | QueryResult.failed msg =>
    some (if msg = "" then none else some ("PFS: " ++ msg), [], none)
  | QueryResult.success pfs_routes feedback_token =>
    match processPathObjects chain_state token_network_address previous_address
        pfs_routes with
    | none => none
    | some paths => some (none, paths, feedback_token)

/-- `get_best_routes` (routing.py lines 31-109): resolve the token network
(the `assert` on a missing one modelled as `none`), short-circuit on the
first usable direct channel with the route `[from, to]` and fee 0, compute
the staleness bound, and fall back to the path-finding service when both a
PFS config and a one-to-N address are present; otherwise report that the
service could not be used. -/
def get_best_routes (query_paths : PFSOracle) (chain_state : ChainState)
    (token_network_address : Address) (one_to_n_address : Option Address)
    (from_address : Address) (to_address : Address) (amount : Nat)
    (previous_address : Option Address) (pfs_config : Option PFSConfig)
    (privkey : PrivateKey) :
    Option (Option String × List RouteState × Option UUID) :=
  match get_token_network_by_address chain_state token_network_address with
  | none => none
  | some token_network =>
    match directPhase token_network to_address amount with
    | none => none
    | some true =>
      some (none, [RouteState.mk [from_address, to_address] 0], none)
    | some false =>
      match pfs_config, one_to_n_address with
      | some pfs_config_value, some one_to_n_address_value =>
        match get_best_routes_pfs query_paths chain_state token_network_address
            one_to_n_address_value from_address to_address amount
            previous_address pfs_config_value privkey
            (latestChannelOpenedAt token_network) with
        | none => none
        | some (pfs_error_msg, pfs_routes, pfs_feedback_token) =>
          if strFalsy pfs_error_msg then
            if pfs_routes.isEmpty then
              some (some "PFS could not find any routes", [], none)
            else
              some (pfs_error_msg, pfs_routes, pfs_feedback_token)
          else
            some (pfs_error_msg, [], none)
      | _, _ =>
        some (some "Pathfinding Service could not be used.", [], none)

/-- `resolve_routes` (routing.py lines 187-216): per peer-supplied
candidate, skip routes shorter than 2 addresses, look up the channel to
the route's second address, and keep a `RouteState` with the unmodified
route and fee 0 whenever a channel exists — its status is not examined. -/
def resolve_routes (routes : List RouteMetadata)
    (token_network_address : Address) (chain_state : ChainState) :
    List RouteState :=
  match routes with
  | [] => []
  | route_metadata :: rest =>
    match route_metadata.route with
    | _ :: partner_address :: _ =>
      match get_channelstate_by_token_network_and_partner chain_state
          token_network_address partner_address with
      | none => resolve_routes rest token_network_address chain_state
      | some _ =>
        RouteState.mk route_metadata.route 0 ::
          resolve_routes rest token_network_address chain_state
    | _ => resolve_routes rest token_network_address chain_state

/-! ## Concrete fixtures used by witnesses and counterexamples -/

/-- An opened channel with ample capacity, opened at block 5. -/
def chOpen : ChannelState :=
  ChannelState.mk 1 ChannelStatus.opened 100 true (TransactionExecutionStatus.mk 5)

/-- A closed channel with ample capacity. -/
def chClosed : ChannelState :=
  ChannelState.mk 2 ChannelStatus.closed 100 true (TransactionExecutionStatus.mk 9)

/-- A token network with one opened channel to partner 2. -/
def netDirect : TokenNetworkState := TokenNetworkState.mk [(2, [1])] [(1, chOpen)]

/-- Chain state holding `netDirect` at token network address 7. -/
def csDirect : ChainState := ChainState.mk 50 1 0 [(7, netDirect)]

/-- A token network whose only channel (to partner 2) is closed. -/
def netClosed : TokenNetworkState := TokenNetworkState.mk [(2, [2])] [(2, chClosed)]

/-- Chain state holding `netClosed` at token network address 7. -/
def csClosed : ChainState := ChainState.mk 50 1 0 [(7, netClosed)]

/-- A token network with no channels at all. -/
def netEmpty : TokenNetworkState := TokenNetworkState.mk [] []

/-- Chain state holding `netEmpty` at token network address 7. -/
def csEmpty : ChainState := ChainState.mk 50 1 0 [(7, netEmpty)]

/-- A token network with one opened channel to the mediator 5. -/
def netMediated : TokenNetworkState := TokenNetworkState.mk [(5, [3])] [(3, chOpen)]

/-- Chain state holding `netMediated` at token network address 7. -/
def csMediated : ChainState := ChainState.mk 50 1 0 [(7, netMediated)]

/-- Oracle: every query raises `ServiceRequestFailed("timeout")`. -/
def oracleFail : PFSOracle := fun _ => QueryResult.failed "timeout"

/-- Oracle: every query raises `ServiceRequestFailed("")` (empty message). -/
def oracleFailEmpty : PFSOracle := fun _ => QueryResult.failed ""

/-- Oracle: every query succeeds with zero paths and a feedback token. -/
def oracleZero : PFSOracle := fun _ => QueryResult.success [] (some 4)

/-- Oracle: every query succeeds with one single-address path. -/
def oracleShort : PFSOracle := fun _ => QueryResult.success [PathObject.mk [5] 3] (some 4)

/-- Oracle: every query succeeds with the mediated path `[1, 5, 2]` at
fee 5 and feedback token 4. -/
def oracleMediated : PFSOracle :=
  fun _ => QueryResult.success [PathObject.mk [1, 5, 2] 5] (some 4)

/-- Oracle agreeing with `oracleFail` exactly on queries whose staleness
bound is block 5, and succeeding with zero paths elsewhere. -/
def oracleWait5 : PFSOracle := fun r =>
  if r.pfs_wait_for_block = 5 then QueryResult.failed "timeout"
  else QueryResult.success [] none

/-! ## Helper lemmas -/

theorem pfs_message_ne_empty (m : String) : "PFS: " ++ m ≠ "" := by
  intro h
  have hd : ("PFS: " ++ m).data = "".data := congrArg String.data h
  simp [String.data_append] at hd

theorem pfs_message_ne_no_routes (m : String) :
    "PFS: " ++ m ≠ "PFS could not find any routes" := by
  intro h
  have hd := congrArg String.data h
  simp [String.data_append] at hd

theorem pfs_message_ne_unusable (m : String) :
    "PFS: " ++ m ≠ "Pathfinding Service could not be used." := by
  intro h
  have hd := congrArg String.data h
  simp [String.data_append] at hd

theorem strFalsy_pfs_message (m : String) :
    strFalsy (some ("PFS: " ++ m)) = false := by
  simp [strFalsy, pfs_message_ne_empty m]

/-- The direct-channel loop returns `some true` whenever every identifier
it may visit resolves (the spec's token-network invariant) and at least
one of the channels is usable for the amount. -/
theorem directLoop_eq_true (token_network : TokenNetworkState) (amount : Nat)
    (channel_ids : List ChannelID)
    (hwf : ∀ cid ∈ channel_ids,
      (List.lookup cid token_network.channelidentifiers_to_channels).isSome)
    (husable : ∃ cid ∈ channel_ids, ∃ cs,
      List.lookup cid token_network.channelidentifiers_to_channels = some cs ∧
      is_channel_usable_for_new_transfer cs amount none = ChannelUsability.USABLE) :
    directLoop token_network amount channel_ids = some true := by
  induction channel_ids with
  | nil => obtain ⟨cid, hmem, _⟩ := husable; cases hmem
  | cons c rest ih =>
    have hc := hwf c (List.mem_cons_self c rest)
    obtain ⟨cs0, hcs0⟩ := Option.isSome_iff_exists.mp hc
    by_cases hus : is_channel_usable_for_new_transfer cs0 amount none =
        ChannelUsability.USABLE
    · simp [directLoop, hcs0, hus]
    · have hrest : ∃ cid ∈ rest, ∃ cs,
          List.lookup cid token_network.channelidentifiers_to_channels = some cs ∧
          is_channel_usable_for_new_transfer cs amount none = ChannelUsability.USABLE := by
        obtain ⟨cid, hmem, cs, hcs, hu⟩ := husable
        rcases List.mem_cons.mp hmem with hceq | hmem'
        · subst hceq
          rw [hcs0] at hcs
          cases hcs
          exact absurd hu hus
        · exact ⟨cid, hmem', cs, hcs, hu⟩
      have ih' := ih (fun cid hm => hwf cid (List.mem_cons_of_mem c hm)) hrest
      simp [directLoop, hcs0, hus, ih']

/-- Every route produced by the PFS validation loop comes from a candidate
of the input list, carries that candidate's canonical path and estimated
fee, has a second address different from the previous hop, and has an
opened channel to its second address. -/
theorem processPathObjects_mem_spec (chain_state : ChainState) (tn : Address)
    (prev : Option Address) (pos : List PathObject) (routes : List RouteState)
    (h : processPathObjects chain_state tn prev pos = some routes) :
    ∀ r ∈ routes, ∃ po ∈ pos, ∃ a hop tail,
      po.path.map to_canonical_address = a :: hop :: tail ∧
      r.route = a :: hop :: tail ∧
      r.estimated_fee = po.estimated_fee ∧
      some hop ≠ prev ∧
      ∃ ch, get_channelstate_by_token_network_and_partner chain_state tn hop =
          some ch ∧ get_status ch = ChannelStatus.opened := by
  induction pos generalizing routes with
  | nil =>
    simp only [processPathObjects, Option.some.injEq] at h
    subst h
    intro r hr
    cases hr
  | cons po rest ih =>
    rcases hm : po.path.map to_canonical_address with _ | ⟨a, l1⟩
    · simp only [processPathObjects, hm] at h
      cases h
    · rcases l1 with _ | ⟨hop, tail⟩
      · simp only [processPathObjects, hm] at h
        cases h
      · simp only [processPathObjects, hm] at h
        by_cases hprev : some hop = prev
        · rw [if_pos hprev] at h
          intro r hr
          obtain ⟨po', hpo', spec⟩ := ih _ h r hr
          exact ⟨po', List.mem_cons_of_mem _ hpo', spec⟩
        · rw [if_neg hprev] at h
          rcases hch : get_channelstate_by_token_network_and_partner chain_state
              tn hop with _ | ch
          · simp only [hch] at h
            intro r hr
            obtain ⟨po', hpo', spec⟩ := ih _ h r hr
            exact ⟨po', List.mem_cons_of_mem _ hpo', spec⟩
          · simp only [hch] at h
            by_cases hst : get_status ch = ChannelStatus.opened
            · rw [if_neg (not_not_intro hst)] at h
              obtain ⟨routes', hroutes', hcons⟩ := Option.map_eq_some'.mp h
              intro r hr
              rw [← hcons] at hr
              rcases List.mem_cons.mp hr with hr1 | hr2
              · subst hr1
                exact ⟨po, List.mem_cons_self _ _, a, hop, tail, hm, rfl, rfl,
                  hprev, ch, hch, hst⟩
              · obtain ⟨po', hpo', spec⟩ := ih _ hroutes' r hr2
                exact ⟨po', List.mem_cons_of_mem _ hpo', spec⟩
            · rw [if_pos hst] at h
              intro r hr
              obtain ⟨po', hpo', spec⟩ := ih _ h r hr
              exact ⟨po', List.mem_cons_of_mem _ hpo', spec⟩

/-- Every route produced by `resolve_routes` comes from one of the
peer-supplied candidates, keeps its route unmodified (length ≥ 2), has
fee 0, and has some channel — of any status — to its second address. -/
theorem resolve_routes_mem_spec (chain_state : ChainState) (tn : Address)
    (rms : List RouteMetadata) (r : RouteState)
    (hr : r ∈ resolve_routes rms tn chain_state) :
    ∃ rm ∈ rms, ∃ a hop tail, rm.route = a :: hop :: tail ∧
      r.route = rm.route ∧ r.estimated_fee = 0 ∧
      (get_channelstate_by_token_network_and_partner chain_state tn hop).isSome := by
  induction rms with
  | nil => simp [resolve_routes] at hr
  | cons rm rest ih =>
    rcases h0 : rm.route with _ | ⟨a, l1⟩
    · simp only [resolve_routes, h0] at hr
      obtain ⟨rm', hrm', spec⟩ := ih hr
      exact ⟨rm', List.mem_cons_of_mem _ hrm', spec⟩
    · rcases l1 with _ | ⟨hop, tail⟩
      · simp only [resolve_routes, h0] at hr
        obtain ⟨rm', hrm', spec⟩ := ih hr
        exact ⟨rm', List.mem_cons_of_mem _ hrm', spec⟩
      · rcases hch : get_channelstate_by_token_network_and_partner chain_state
            tn hop with _ | ch
        · simp only [resolve_routes, h0, hch] at hr
          obtain ⟨rm', hrm', spec⟩ := ih hr
          exact ⟨rm', List.mem_cons_of_mem _ hrm', spec⟩
        · simp only [resolve_routes, h0, hch] at hr
          rcases List.mem_cons.mp hr with hr1 | hr2
          · subst hr1
            exact ⟨rm, List.mem_cons_self _ _, a, hop, tail, h0, h0.symm, rfl, by
              rw [hch]; rfl⟩
          · obtain ⟨rm', hrm', spec⟩ := ih hr2
            exact ⟨rm', List.mem_cons_of_mem _ hrm', spec⟩

/-- `resolve_routes` keeps every candidate of length ≥ 2 whose second
address has a channel, whatever that second address is — there is no
previous-hop exclusion. -/
theorem resolve_routes_mem_of (chain_state : ChainState) (tn : Address)
    (rms : List RouteMetadata) (rm : RouteMetadata) (a hop : Address)
    (tail : List Address) (hmem : rm ∈ rms)
    (hroute : rm.route = a :: hop :: tail)
    (hch : (get_channelstate_by_token_network_and_partner chain_state tn
      hop).isSome) :
    RouteState.mk rm.route 0 ∈ resolve_routes rms tn chain_state := by
  induction rms with
  | nil => cases hmem
  | cons rm0 rest ih =>
    rcases List.mem_cons.mp hmem with heq | hmem'
    · subst heq
      obtain ⟨ch, hch'⟩ := Option.isSome_iff_exists.mp hch
      simp [resolve_routes, hroute, hch']
    · have hrec := ih hmem'
      rcases h0 : rm0.route with _ | ⟨b, l0⟩
      · simpa [resolve_routes, h0] using hrec
      · rcases l0 with _ | ⟨hop0, tail0⟩
        · simpa [resolve_routes, h0] using hrec
        · rcases hch0 : get_channelstate_by_token_network_and_partner chain_state
              tn hop0 with _ | ch0
          · simpa [resolve_routes, h0, hch0] using hrec
          · simp only [resolve_routes, h0, hch0]
            exact List.mem_cons_of_mem _ hrec

/-! ## Claim theorems -/

/-- C1: for every chain state, token network, payer, payee and amount such
that the token network's partner index holds at least one channel to the
payee that is usable for the full amount (over identifiers that all
resolve, the spec's token-network invariant), `get_best_routes` returns
`(none, [RouteState [payer, payee] fee 0], none)` — the first usable
channel short-circuits, and since the result holds for every oracle, PFS
config and one-to-N address, no path-finding query is issued. -/
theorem C1_direct_channel_short_circuit
    (query_paths : PFSOracle) (chain_state : ChainState)
    (token_network_address : Address) (one_to_n_address : Option Address)
    (from_address to_address : Address) (amount : Nat)
    (previous_address : Option Address) (pfs_config : Option PFSConfig)
    (privkey : PrivateKey) (token_network : TokenNetworkState)
    (channel_ids : List ChannelID)
    (hnet : get_token_network_by_address chain_state token_network_address =
      some token_network)
    (hpartner : List.lookup to_address
      token_network.partneraddresses_to_channelidentifiers = some channel_ids)
    (hwf : ∀ cid ∈ channel_ids,
      (List.lookup cid token_network.channelidentifiers_to_channels).isSome)
    (husable : ∃ cid ∈ channel_ids, ∃ cs,
      List.lookup cid token_network.channelidentifiers_to_channels = some cs ∧
      is_channel_usable_for_new_transfer cs amount none = ChannelUsability.USABLE) :
    get_best_routes query_paths chain_state token_network_address
      one_to_n_address from_address to_address amount previous_address
      pfs_config privkey =
      some (none, [RouteState.mk [from_address, to_address] 0], none) := by
  have hloop := directLoop_eq_true token_network amount channel_ids hwf husable
  simp [get_best_routes, directPhase, hnet, hpartner, hloop]

/-- C1 witness: in `csDirect` (one opened, amply funded channel payer 1 ↔
payee 2) with a PFS config and one-to-N address supplied and an oracle
that would fail every query, the direct route is returned. -/
theorem C1_witness :
    get_best_routes oracleFail csDirect 7 (some 9) 1 2 10 none
      (some (PFSConfig.mk 0)) 0 =
      some (none, [RouteState.mk [1, 2] 0], none) :=
  C1_direct_channel_short_circuit oracleFail csDirect 7 (some 9) 1 2 10 none
    (some (PFSConfig.mk 0)) 0 netDirect [1] (by rfl) (by rfl) (by decide)
    ⟨1, by decide, chOpen, by decide, by decide⟩

/-- C2 counterexample: in `csClosed` the channel between this node and
address 2 exists but is closed, yet `resolve_routes` keeps the candidate
`[0, 2]` — peer-supplied route metadata is not discarded on a non-opened
channel, contradicting the claim that both resolution paths apply the
status check. -/
theorem C2_counterexample :
    get_channelstate_by_token_network_and_partner csClosed 7 2 = some chClosed ∧
    get_status chClosed ≠ ChannelStatus.opened ∧
    resolve_routes [RouteMetadata.mk [0, 2]] 7 csClosed =
      [RouteState.mk [0, 2] 0] := by
  decide

/-- C2 (amended): a candidate of length ≥ 2 survives `get_best_routes_pfs`'s
validation loop only if a channel between this node and the path's second
address exists and its status is opened; `resolve_routes` applies only the
first of these checks — a candidate survives it only if such a channel
exists, with no requirement on the channel's status. -/
theorem C2_amended_channel_checks :
    (∀ (chain_state : ChainState) (tn : Address) (prev : Option Address)
        (pos : List PathObject) (routes : List RouteState),
      processPathObjects chain_state tn prev pos = some routes →
      ∀ r ∈ routes, ∃ a hop tail, r.route = a :: hop :: tail ∧
        ∃ ch, get_channelstate_by_token_network_and_partner chain_state tn hop =
            some ch ∧ get_status ch = ChannelStatus.opened) ∧
    (∀ (chain_state : ChainState) (tn : Address) (rms : List RouteMetadata)
        (r : RouteState), r ∈ resolve_routes rms tn chain_state →
      ∃ a hop tail, r.route = a :: hop :: tail ∧
        (get_channelstate_by_token_network_and_partner chain_state tn
          hop).isSome) := by
  constructor
  · intro chain_state tn prev pos routes h r hr
    obtain ⟨po, _, a, hop, tail, _, hroute, _, _, ch, hch, hst⟩ :=
      processPathObjects_mem_spec chain_state tn prev pos routes h r hr
    exact ⟨a, hop, tail, hroute, ch, hch, hst⟩
  · intro chain_state tn rms r hr
    obtain ⟨rm, _, a, hop, tail, hrm, hroute, _, hch⟩ :=
      resolve_routes_mem_spec chain_state tn rms r hr
    exact ⟨a, hop, tail, hroute.trans hrm, hch⟩

/-- C2 witness: both parts of the amended claim applied to concrete
inputs — the mediated path `[1, 5, 2]` validated by the PFS loop in
`csMediated`, and the peer candidate `[0, 2]` resolved in `csClosed`. -/
theorem C2_witness :
    (∃ a hop tail, (RouteState.mk [1, 5, 2] 5).route = a :: hop :: tail ∧
      ∃ ch, get_channelstate_by_token_network_and_partner csMediated 7 hop =
          some ch ∧ get_status ch = ChannelStatus.opened) ∧
    (∃ a hop tail, (RouteState.mk [0, 2] 0).route = a :: hop :: tail ∧
      (get_channelstate_by_token_network_and_partner csClosed 7 hop).isSome) :=
  ⟨C2_amended_channel_checks.1 csMediated 7 (some 8)
      [PathObject.mk [1, 5, 2] 5] [RouteState.mk [1, 5, 2] 5] (by rfl)
      (RouteState.mk [1, 5, 2] 5) (by decide),
    C2_amended_channel_checks.2 csClosed 7 [RouteMetadata.mk [0, 2]]
      (RouteState.mk [0, 2] 0) (by decide)⟩

/-- C3 counterexample: a `ServiceRequestFailed` whose message is the empty
string makes `get_best_routes_pfs` return a `none` message, so
`get_best_routes` answers with the zero-routes message rather than
`"PFS: " ++ m` — the claim fails for `m = ""`. -/
theorem C3_counterexample :
    get_best_routes oracleFailEmpty csEmpty 7 (some 9) 1 2 10 none
      (some (PFSConfig.mk 0)) 0 =
      some (some "PFS could not find any routes", [], none) ∧
    "PFS could not find any routes" ≠ "PFS: " ++ "" := by
  exact ⟨rfl, (pfs_message_ne_no_routes "").symm⟩

/-- C3 (amended): for every failure of the path-finding request layer with
a non-empty message `m`, `get_best_routes` does not propagate the
exception and returns `("PFS: " ++ m, [], none)`. -/
theorem C3_pfs_failure_returned_as_value
    (query_paths : PFSOracle) (chain_state : ChainState)
    (token_network_address one_to_n_address from_address to_address : Address)
    (amount : Nat) (previous_address : Option Address) (pfs_config : PFSConfig)
    (privkey : PrivateKey) (token_network : TokenNetworkState) (m : String)
    (hnet : get_token_network_by_address chain_state token_network_address =
      some token_network)
    (hdirect : directPhase token_network to_address amount = some false)
    (hm : m ≠ "")
    (hfail : ∀ r, query_paths r = QueryResult.failed m) :
    get_best_routes query_paths chain_state token_network_address
      (some one_to_n_address) from_address to_address amount previous_address
      (some pfs_config) privkey =
      some (some ("PFS: " ++ m), [], none) := by
  simp [get_best_routes, hnet, hdirect, get_best_routes_pfs, hfail, hm,
    strFalsy_pfs_message m]

/-- C3 witness: the amended theorem at the scenario-C input — failure with
message "timeout" in a token network with no channels. -/
theorem C3_witness :
    get_best_routes oracleFail csEmpty 7 (some 9) 1 2 10 none
      (some (PFSConfig.mk 0)) 0 =
      some (some ("PFS: " ++ "timeout"), [], none) :=
  C3_pfs_failure_returned_as_value oracleFail csEmpty 7 9 1 2 10 none
    (PFSConfig.mk 0) 0 netEmpty "timeout" (by rfl) (by rfl) (by decide)
    (fun _ => rfl)

/-- C4: when no direct channel is usable, a PFS config and one-to-N
address are present, and the query succeeds with zero paths,
`get_best_routes` returns exactly
`("PFS could not find any routes", [], none)` — the feedback token the
successful query returned is dropped. -/
theorem C4_zero_paths_distinct_message
    (query_paths : PFSOracle) (chain_state : ChainState)
    (token_network_address one_to_n_address from_address to_address : Address)
    (amount : Nat) (previous_address : Option Address) (pfs_config : PFSConfig)
    (privkey : PrivateKey) (token_network : TokenNetworkState)
    (tok : Option UUID)
    (hnet : get_token_network_by_address chain_state token_network_address =
      some token_network)
    (hdirect : directPhase token_network to_address amount = some false)
    (hzero : ∀ r, query_paths r = QueryResult.success [] tok) :
    get_best_routes query_paths chain_state token_network_address
      (some one_to_n_address) from_address to_address amount previous_address
      (some pfs_config) privkey =
      some (some "PFS could not find any routes", [], none) := by
  simp [get_best_routes, hnet, hdirect, get_best_routes_pfs, hzero,
    processPathObjects, strFalsy]

/-- C4 witness: the scenario-D input — a successful query with zero paths
and feedback token 4 in a token network with no channels. -/
theorem C4_witness :
    get_best_routes oracleZero csEmpty 7 (some 9) 1 2 10 none
      (some (PFSConfig.mk 0)) 0 =
      some (some "PFS could not find any routes", [], none) :=
  C4_zero_paths_distinct_message oracleZero csEmpty 7 9 1 2 10 none
    (PFSConfig.mk 0) 0 netEmpty (some 4) (by rfl) (by rfl) (fun _ => rfl)

/-- C5 counterexample: two calls that fail for different reasons — one
whose path-finding request fails (raising `ServiceRequestFailed` with an
empty message), one whose request succeeds with zero paths — both receive
the message "PFS could not find any routes", so the message does not
uniquely identify the failure condition. -/
theorem C5_counterexample :
    get_best_routes oracleFailEmpty csEmpty 7 (some 9) 1 2 10 none
      (some (PFSConfig.mk 0)) 0 =
      some (some "PFS could not find any routes", [], none) ∧
    get_best_routes oracleZero csEmpty 7 (some 9) 1 2 10 none
      (some (PFSConfig.mk 0)) 0 =
      some (some "PFS could not find any routes", [], none) :=
  ⟨rfl, rfl⟩

/-- C5 (amended): provided every request failure carries a non-empty
message, the three empty-route outcomes receive pairwise distinct
messages — `"PFS: " ++ m` for a failed request, "PFS could not find any
routes" for a successful request with zero paths, and "Pathfinding
Service could not be used." when no PFS config or one-to-N address is
available. -/
theorem C5_amended_distinct_messages
    (pfsF pfsZ : PFSOracle) (chain_state : ChainState)
    (token_network_address one_to_n_address from_address to_address : Address)
    (amount : Nat) (previous_address : Option Address) (pfs_config : PFSConfig)
    (privkey : PrivateKey) (token_network : TokenNetworkState) (m : String)
    (tok : Option UUID)
    (hnet : get_token_network_by_address chain_state token_network_address =
      some token_network)
    (hdirect : directPhase token_network to_address amount = some false)
    (hm : m ≠ "")
    (hF : ∀ r, pfsF r = QueryResult.failed m)
    (hZ : ∀ r, pfsZ r = QueryResult.success [] tok) :
    get_best_routes pfsF chain_state token_network_address
      (some one_to_n_address) from_address to_address amount previous_address
      (some pfs_config) privkey = some (some ("PFS: " ++ m), [], none) ∧
    get_best_routes pfsZ chain_state token_network_address
      (some one_to_n_address) from_address to_address amount previous_address
      (some pfs_config) privkey =
      some (some "PFS could not find any routes", [], none) ∧
    get_best_routes pfsF chain_state token_network_address none from_address
      to_address amount previous_address (some pfs_config) privkey =
      some (some "Pathfinding Service could not be used.", [], none) ∧
    "PFS: " ++ m ≠ "PFS could not find any routes" ∧
    "PFS: " ++ m ≠ "Pathfinding Service could not be used." ∧
    ("PFS could not find any routes" : String) ≠
      "Pathfinding Service could not be used." := by
  refine ⟨?_, ?_, ?_, pfs_message_ne_no_routes m, pfs_message_ne_unusable m,
    by decide⟩
  · simp [get_best_routes, hnet, hdirect, get_best_routes_pfs, hF, hm,
      strFalsy_pfs_message m]
  · simp [get_best_routes, hnet, hdirect, get_best_routes_pfs, hZ,
      processPathObjects, strFalsy]
  · simp [get_best_routes, hnet, hdirect]

/-- C5 witness: the amended theorem at concrete inputs — failure message
"timeout", a zero-paths success, and a call with no one-to-N address. -/
theorem C5_witness :
    get_best_routes oracleFail csEmpty 7 (some 9) 1 2 10 none
      (some (PFSConfig.mk 0)) 0 = some (some ("PFS: " ++ "timeout"), [], none) ∧
    get_best_routes oracleZero csEmpty 7 (some 9) 1 2 10 none
      (some (PFSConfig.mk 0)) 0 =
      some (some "PFS could not find any routes", [], none) ∧
    get_best_routes oracleFail csEmpty 7 none 1 2 10 none
      (some (PFSConfig.mk 0)) 0 =
      some (some "Pathfinding Service could not be used.", [], none) ∧
    "PFS: " ++ "timeout" ≠ "PFS could not find any routes" ∧
    "PFS: " ++ "timeout" ≠ "Pathfinding Service could not be used." ∧
    ("PFS could not find any routes" : String) ≠
      "Pathfinding Service could not be used." :=
  C5_amended_distinct_messages oracleFail oracleZero csEmpty 7 9 1 2 10 none
    (PFSConfig.mk 0) 0 netEmpty "timeout" (some 4) (by rfl) (by rfl)
    (by decide) (fun _ => rfl) (fun _ => rfl)

/-- C6 counterexample: `get_best_routes_pfs` does not discard a
single-address candidate path: reading the path's second address raises
`IndexError` (modelled as the `none` result) instead of returning
normally, contradicting the claim for the path-finding branch. -/
theorem C6_counterexample :
    (PathObject.mk [5] 3).path.length < 2 ∧
    get_best_routes_pfs oracleShort csEmpty 7 9 1 2 10 none (PFSConfig.mk 0)
      0 0 = none :=
  ⟨by decide, rfl⟩

/-- C6 (amended): `resolve_routes` discards candidates of length < 2 and
returns normally, but `get_best_routes_pfs`'s validation loop raises an
index error (modelled as `none`) on any candidate path of length < 2. -/
theorem C6_amended_short_path_handling :
    (∀ (route_metadata : RouteMetadata) (rest : List RouteMetadata)
        (tn : Address) (chain_state : ChainState),
      route_metadata.route.length < 2 →
      resolve_routes (route_metadata :: rest) tn chain_state =
        resolve_routes rest tn chain_state) ∧
    (∀ (chain_state : ChainState) (tn : Address) (prev : Option Address)
        (path_object : PathObject) (rest : List PathObject),
      path_object.path.length < 2 →
      processPathObjects chain_state tn prev (path_object :: rest) = none) := by
  constructor
  · intro rm rest tn chain_state hlen
    rcases h0 : rm.route with _ | ⟨a, l1⟩
    · simp [resolve_routes, h0]
    · rcases l1 with _ | ⟨b, t⟩
      · simp [resolve_routes, h0]
      · rw [h0, List.length_cons, List.length_cons] at hlen
        omega
  · intro chain_state tn prev po rest hlen
    rcases h0 : po.path with _ | ⟨a, l1⟩
    · simp [processPathObjects, h0]
    · rcases l1 with _ | ⟨b, t⟩
      · simp [processPathObjects, h0, to_canonical_address]
      · rw [h0, List.length_cons, List.length_cons] at hlen
        omega

/-- C6 witness: both parts of the amended claim applied to the concrete
single-address candidate `[5]`. -/
theorem C6_witness :
    resolve_routes [RouteMetadata.mk [5]] 7 csEmpty =
      resolve_routes [] 7 csEmpty ∧
    processPathObjects csEmpty 7 none [PathObject.mk [5] 3] = none :=
  ⟨C6_amended_short_path_handling.1 (RouteMetadata.mk [5]) [] 7 csEmpty
      (by decide),
    C6_amended_short_path_handling.2 csEmpty 7 none (PathObject.mk [5] 3) []
      (by decide)⟩

theorem map_to_canonical_address_id (l : List Address) :
    l.map to_canonical_address = l := by
  induction l with
  | nil => rfl
  | cons a t ih => simp [to_canonical_address, ih]

/-- C7: every route surviving `get_best_routes_pfs`'s validation loop has
a second (canonical) address different from the supplied
`previous_address`, while `resolve_routes` applies no previous-hop
exclusion — it keeps every candidate of length ≥ 2 with an existing
channel, whatever its second address is. -/
theorem C7_no_backtrack_pfs_only :
    (∀ (chain_state : ChainState) (tn : Address) (prev : Address)
        (pos : List PathObject) (routes : List RouteState),
      processPathObjects chain_state tn (some prev) pos = some routes →
      ∀ r ∈ routes, ∃ a hop tail, r.route = a :: hop :: tail ∧ hop ≠ prev) ∧
    (∀ (chain_state : ChainState) (tn : Address) (rms : List RouteMetadata)
        (rm : RouteMetadata) (a hop : Address) (tail : List Address),
      rm ∈ rms → rm.route = a :: hop :: tail →
      (get_channelstate_by_token_network_and_partner chain_state tn
        hop).isSome →
      RouteState.mk rm.route 0 ∈ resolve_routes rms tn chain_state) := by
  constructor
  · intro chain_state tn prev pos routes h r hr
    obtain ⟨po, _, a, hop, tail, _, hroute, _, hneq, _⟩ :=
      processPathObjects_mem_spec chain_state tn (some prev) pos routes h r hr
    refine ⟨a, hop, tail, hroute, ?_⟩
    intro heq
    exact hneq (by rw [heq])
  · intro chain_state tn rms rm a hop tail hmem hroute hch
    exact resolve_routes_mem_of chain_state tn rms rm a hop tail hmem hroute hch

/-- C7 witness: the PFS loop keeps the path `[1, 5, 2]` whose second
address 5 differs from the previous hop 8, and `resolve_routes` keeps the
candidate `[0, 2]` regardless of its second address. -/
theorem C7_witness :
    (∃ a hop tail, (RouteState.mk [1, 5, 2] 5).route = a :: hop :: tail ∧
      hop ≠ 8) ∧
    RouteState.mk (RouteMetadata.mk [0, 2]).route 0 ∈
      resolve_routes [RouteMetadata.mk [0, 2]] 7 csClosed :=
  ⟨C7_no_backtrack_pfs_only.1 csMediated 7 8 [PathObject.mk [1, 5, 2] 5]
      [RouteState.mk [1, 5, 2] 5] (by rfl) (RouteState.mk [1, 5, 2] 5)
      (by decide),
    C7_no_backtrack_pfs_only.2 csClosed 7 [RouteMetadata.mk [0, 2]]
      (RouteMetadata.mk [0, 2]) 0 2 [] (by decide) (by rfl) (by decide)⟩

/-- C8: every route produced from a PFS candidate carries exactly that
candidate's estimated fee and its full address sequence, and every route
produced by `resolve_routes` carries fee 0 and the candidate's unmodified
address sequence. -/
theorem C8_fee_and_route_passthrough :
    (∀ (chain_state : ChainState) (tn : Address) (prev : Option Address)
        (pos : List PathObject) (routes : List RouteState),
      processPathObjects chain_state tn prev pos = some routes →
      ∀ r ∈ routes, ∃ po ∈ pos, r.route = po.path ∧
        r.estimated_fee = po.estimated_fee) ∧
    (∀ (chain_state : ChainState) (tn : Address) (rms : List RouteMetadata)
        (r : RouteState), r ∈ resolve_routes rms tn chain_state →
      ∃ rm ∈ rms, r.route = rm.route ∧ r.estimated_fee = 0) := by
  constructor
  · intro chain_state tn prev pos routes h r hr
    obtain ⟨po, hpo, a, hop, tail, hmap, hroute, hfee, _, _⟩ :=
      processPathObjects_mem_spec chain_state tn prev pos routes h r hr
    refine ⟨po, hpo, ?_, hfee⟩
    rw [hroute, ← hmap, map_to_canonical_address_id]
  · intro chain_state tn rms r hr
    obtain ⟨rm, hrm, _, _, _, _, hroute, hfee, _⟩ :=
      resolve_routes_mem_spec chain_state tn rms r hr
    exact ⟨rm, hrm, hroute, hfee⟩

/-- C8 witness: the PFS route `[1, 5, 2]` keeps the candidate's fee 5 and
path, and the resolved peer route `[0, 2]` carries fee 0. -/
theorem C8_witness :
    (∃ po ∈ [PathObject.mk [1, 5, 2] 5],
      (RouteState.mk [1, 5, 2] 5).route = po.path ∧
      (RouteState.mk [1, 5, 2] 5).estimated_fee = po.estimated_fee) ∧
    (∃ rm ∈ [RouteMetadata.mk [0, 2]],
      (RouteState.mk [0, 2] 0).route = rm.route ∧
      (RouteState.mk [0, 2] 0).estimated_fee = 0) :=
  ⟨C8_fee_and_route_passthrough.1 csMediated 7 (some 8)
      [PathObject.mk [1, 5, 2] 5] [RouteState.mk [1, 5, 2] 5] (by rfl)
      (RouteState.mk [1, 5, 2] 5) (by decide),
    C8_fee_and_route_passthrough.2 csClosed 7 [RouteMetadata.mk [0, 2]]
      (RouteState.mk [0, 2] 0) (by decide)⟩

theorem le_foldl_max (l : List Nat) (a : Nat) : a ≤ l.foldl max a := by
  induction l generalizing a with
  | nil => exact le_refl a
  | cons b t ih => exact le_trans (le_max_left a b) (ih (max a b))

theorem mem_le_foldl_max (l : List Nat) :
    ∀ (a x : Nat), x ∈ l → x ≤ l.foldl max a := by
  induction l with
  | nil => intro a x hx; cases hx
  | cons b t ih =>
    intro a x hx
    rcases List.mem_cons.mp hx with h1 | h2
    · subst h1
      exact le_trans (le_max_right a x) (le_foldl_max t (max a x))
    · exact ih (max a b) x h2

theorem foldl_max_mem (l : List Nat) :
    ∀ a : Nat, l.foldl max a = a ∨ l.foldl max a ∈ l := by
  induction l with
  | nil => intro a; exact Or.inl rfl
  | cons b t ih =>
    intro a
    rcases ih (max a b) with h | h
    · rcases max_choice a b with hab | hab
      · left; rw [List.foldl_cons, h, hab]
      · right; rw [List.foldl_cons, h, hab]; exact List.mem_cons_self b t
    · right; exact List.mem_cons_of_mem b h

theorem foldl_max_zero_mem (l : List Nat) (hne : l ≠ []) :
    l.foldl max 0 ∈ l := by
  rcases foldl_max_mem l 0 with h | h
  · rcases hl : l with _ | ⟨b, t⟩
    · exact absurd hl hne
    · subst hl
      have hb : b ≤ (b :: t).foldl max 0 :=
        mem_le_foldl_max (b :: t) 0 b (List.mem_cons_self b t)
      rw [h] at hb
      have hb0 : b = 0 := Nat.le_zero.mp hb
      rw [h, ← hb0]
      exact List.mem_cons_self b t
  · exact h

/-- C9: when no direct channel is usable and both a PFS config and a
one-to-N address are present, the result of `get_best_routes` depends on
the oracle only through queries whose `pfs_wait_for_block` equals
`latestChannelOpenedAt` of the token network — the value it passes — and
that value is the maximum over all channels of the block number at which
the channel's opening transaction finished, 0 when there are no
channels. -/
theorem C9_wait_for_block_is_latest_open
    (chain_state : ChainState)
    (token_network_address one_to_n_address from_address to_address : Address)
    (amount : Nat) (previous_address : Option Address) (pfs_config : PFSConfig)
    (privkey : PrivateKey) (token_network : TokenNetworkState)
    (hnet : get_token_network_by_address chain_state token_network_address =
      some token_network)
    (hdirect : directPhase token_network to_address amount = some false) :
    (∀ pfs1 pfs2 : PFSOracle,
      (∀ r, r.pfs_wait_for_block = latestChannelOpenedAt token_network →
        pfs1 r = pfs2 r) →
      get_best_routes pfs1 chain_state token_network_address
        (some one_to_n_address) from_address to_address amount
        previous_address (some pfs_config) privkey =
      get_best_routes pfs2 chain_state token_network_address
        (some one_to_n_address) from_address to_address amount
        previous_address (some pfs_config) privkey) ∧
    (token_network.channelidentifiers_to_channels = [] →
      latestChannelOpenedAt token_network = 0) ∧
    (∀ p ∈ token_network.channelidentifiers_to_channels,
      p.2.open_transaction.finished_block_number ≤
        latestChannelOpenedAt token_network) ∧
    (token_network.channelidentifiers_to_channels ≠ [] →
      ∃ p ∈ token_network.channelidentifiers_to_channels,
        latestChannelOpenedAt token_network =
          p.2.open_transaction.finished_block_number) := by
  refine ⟨?_, ?_, ?_, ?_⟩
  · intro pfs1 pfs2 hagree
    have hq := hagree (PFSRequest.mk pfs_config chain_state.our_address privkey
      chain_state.block_number token_network_address one_to_n_address
      chain_state.chain_id from_address to_address amount
      (latestChannelOpenedAt token_network)) rfl
    simp [get_best_routes, hnet, hdirect, get_best_routes_pfs, hq]
  · intro h0
    simp [latestChannelOpenedAt, h0]
  · intro p hp
    exact mem_le_foldl_max _ 0 _ (List.mem_map_of_mem _ hp)
  · intro hne
    have hmem := foldl_max_zero_mem
      (token_network.channelidentifiers_to_channels.map
        (fun p => p.2.open_transaction.finished_block_number))
      (by simpa using hne)
    obtain ⟨p, hp, hpe⟩ := List.mem_map.mp hmem
    exact ⟨p, hp, hpe.symm⟩

/-- C9 witness: in `csDirect` with payee 3 (no direct channel), the only
channel opened at block 5, so `latestChannelOpenedAt` is 5: an oracle
defined only on wait-for-block 5 agrees with the always-failing oracle
and both calls coincide, and the channel's opening block bounds the
value. -/
theorem C9_witness :
    get_best_routes oracleWait5 csDirect 7 (some 9) 1 3 10 none
      (some (PFSConfig.mk 0)) 0 =
      get_best_routes oracleFail csDirect 7 (some 9) 1 3 10 none
        (some (PFSConfig.mk 0)) 0 ∧
    (1, chOpen).2.open_transaction.finished_block_number ≤
      latestChannelOpenedAt netDirect :=
  ⟨(C9_wait_for_block_is_latest_open csDirect 7 9 1 3 10 none
      (PFSConfig.mk 0) 0 netDirect (by rfl) (by rfl)).1 oracleWait5 oracleFail
      (fun r hr => by
        have h5 : r.pfs_wait_for_block = 5 := by rw [hr]; rfl
        simp [oracleWait5, oracleFail, h5]),
    (C9_wait_for_block_is_latest_open csDirect 7 9 1 3 10 none
      (PFSConfig.mk 0) 0 netDirect (by rfl) (by rfl)).2.2.1 (1, chOpen)
      (by decide)⟩

/-- The message component of a `get_best_routes_pfs` result is either
`none`, or a non-empty "PFS: "-prefixed failure message accompanied by an
empty route list and no feedback token. -/
theorem get_best_routes_pfs_message_cases
    (query_paths : PFSOracle) (chain_state : ChainState)
    (tn o2n fa ta : Address) (amount : Nat) (prev : Option Address)
    (cfg : PFSConfig) (pk : PrivateKey) (w : Nat)
    (msg : Option String) (routes : List RouteState) (tok : Option UUID)
    (h : get_best_routes_pfs query_paths chain_state tn o2n fa ta amount prev
      cfg pk w = some (msg, routes, tok)) :
    msg = none ∨ ∃ m, m ≠ "" ∧ msg = some ("PFS: " ++ m) ∧ routes = [] ∧
      tok = none := by
  rcases hq : query_paths (PFSRequest.mk cfg chain_state.our_address pk
      chain_state.block_number tn o2n chain_state.chain_id fa ta amount w)
    with m | ⟨rs, ft⟩
  · simp only [get_best_routes_pfs, hq, Option.some.injEq, Prod.mk.injEq] at h
    by_cases hm : m = ""
    · rw [if_pos hm] at h
      exact Or.inl h.1.symm
    · rw [if_neg hm] at h
      exact Or.inr ⟨m, hm, h.1.symm, h.2.1.symm, h.2.2.symm⟩
  · rcases hp : processPathObjects chain_state tn prev rs with _ | paths
    · simp [get_best_routes_pfs, hq, hp] at h
    · simp only [get_best_routes_pfs, hq, hp, Option.some.injEq,
        Prod.mk.injEq] at h
      exact Or.inl h.1.symm

/-- C10: the three result components of `get_best_routes` are linked — a
non-`none` message comes with an empty route list and no feedback token, a
feedback token can be present only with a `none` message and a non-empty
route list, and a direct-channel success always carries a `none` feedback
token. -/
theorem C10_result_components_linked :
    (∀ (query_paths : PFSOracle) (chain_state : ChainState) (tn : Address)
        (o2n : Option Address) (fa ta : Address) (amount : Nat)
        (prev : Option Address) (cfg : Option PFSConfig) (pk : PrivateKey)
        (msg : Option String) (routes : List RouteState) (tok : Option UUID),
      get_best_routes query_paths chain_state tn o2n fa ta amount prev cfg
        pk = some (msg, routes, tok) →
      (msg ≠ none → routes = [] ∧ tok = none) ∧
      (tok ≠ none → msg = none ∧ routes ≠ [])) ∧
    (∀ (query_paths : PFSOracle) (chain_state : ChainState) (tn : Address)
        (o2n : Option Address) (fa ta : Address) (amount : Nat)
        (prev : Option Address) (cfg : Option PFSConfig) (pk : PrivateKey)
        (token_network : TokenNetworkState),
      get_token_network_by_address chain_state tn = some token_network →
      directPhase token_network ta amount = some true →
      get_best_routes query_paths chain_state tn o2n fa ta amount prev cfg
        pk = some (none, [RouteState.mk [fa, ta] 0], none)) := by
  constructor
  · intro q cs tn o2n fa ta amount prev cfg pk msg routes tok h
    rcases hnet : get_token_network_by_address cs tn with _ | net
    · simp [get_best_routes, hnet] at h
    · simp only [get_best_routes, hnet] at h
      rcases hd : directPhase net ta amount with _ | b
      · simp only [hd] at h
        cases h
      · simp only [hd] at h
        cases b with
        | true =>
          simp only [Option.some.injEq, Prod.mk.injEq] at h
          exact ⟨fun hmsg => absurd h.1.symm hmsg,
            fun htok => absurd h.2.2.symm htok⟩
        | false =>
          rcases cfg with _ | cfgv
          · simp only [Option.some.injEq, Prod.mk.injEq] at h
            exact ⟨fun _ => ⟨h.2.1.symm, h.2.2.symm⟩,
              fun htok => absurd h.2.2.symm htok⟩
          · rcases o2n with _ | o2nv
            · simp only [Option.some.injEq, Prod.mk.injEq] at h
              exact ⟨fun _ => ⟨h.2.1.symm, h.2.2.symm⟩,
                fun htok => absurd h.2.2.symm htok⟩
            · rcases hres : get_best_routes_pfs q cs tn o2nv fa ta amount prev
                  cfgv pk (latestChannelOpenedAt net) with _ | ⟨m', rs', tok'⟩
              · simp only [hres] at h
                cases h
              · simp only [hres] at h
                rcases get_best_routes_pfs_message_cases q cs tn o2nv fa ta
                    amount prev cfgv pk (latestChannelOpenedAt net) m' rs' tok'
                    hres with hm' | ⟨m, hm, hmsg', hrs', htok'⟩
                · subst hm'
                  simp only [strFalsy, if_true] at h
                  by_cases hempty : rs'.isEmpty = true
                  · rw [if_pos hempty] at h
                    simp only [Option.some.injEq, Prod.mk.injEq] at h
                    exact ⟨fun _ => ⟨h.2.1.symm, h.2.2.symm⟩,
                      fun htok => absurd h.2.2.symm htok⟩
                  · rw [if_neg hempty] at h
                    simp only [Option.some.injEq, Prod.mk.injEq] at h
                    have hne : rs' ≠ [] := fun hnil => hempty (by rw [hnil]; rfl)
                    refine ⟨fun hmsg => absurd h.1.symm hmsg, fun _ => ⟨h.1.symm, ?_⟩⟩
                    rw [← h.2.1]
                    exact hne
                · have hcond : strFalsy m' = false := by
                    rw [hmsg']; exact strFalsy_pfs_message m
                  rw [hcond] at h
                  rw [if_neg Bool.false_ne_true] at h
                  simp only [Option.some.injEq, Prod.mk.injEq] at h
                  exact ⟨fun _ => ⟨h.2.1.symm, h.2.2.symm⟩,
                    fun htok => absurd h.2.2.symm htok⟩
  · intro q cs tn o2n fa ta amount prev cfg pk net hnet hdirect
    simp [get_best_routes, hnet, hdirect]

/-- C10 witness: the linkage applied to a failed-request result (message
present, empty routes, no token), and a direct-channel success carrying a
`none` feedback token. -/
theorem C10_witness :
    ((some "PFS: timeout" ≠ (none : Option String) →
        ([] : List RouteState) = [] ∧ (none : Option UUID) = none) ∧
      ((none : Option UUID) ≠ none →
        some "PFS: timeout" = none ∧ ([] : List RouteState) ≠ [])) ∧
    get_best_routes oracleFail csDirect 7 (some 9) 1 2 10 none
      (some (PFSConfig.mk 0)) 0 =
      some (none, [RouteState.mk [1, 2] 0], none) :=
  ⟨C10_result_components_linked.1 oracleFail csEmpty 7 (some 9) 1 2 10 none
      (some (PFSConfig.mk 0)) 0 (some "PFS: timeout") [] none (by rfl),
    C10_result_components_linked.2 oracleFail csDirect 7 (some 9) 1 2 10 none
      (some (PFSConfig.mk 0)) 0 netDirect (by rfl) (by rfl)⟩
